import Mathlib

/-!
Verification of the maze scene of the Dungeon-Diver repository
(`src/maze_scene.rs`).

The Rust module is embedded shallowly:

* `CellType` mirrors the Rust enum.
* The grid `Vec<Vec<CellType>>` becomes `List (List CellType)`; reads and
  writes go through `getCell` / `setCell`.  Out-of-bounds reads return
  `CellType.Wall` and out-of-bounds writes are no-ops (in Rust such accesses
  would panic; every access relevant to the statements below is in bounds).
* The thread-local random number generator used by `generate_simple_maze`
  is replaced by an explicit list `walls` of sampled `(x, y)` coordinates:
  the source draws `(width * height) / 5` samples with
  `x ∈ [1, width-2]` and `y ∈ [1, height-2]` and our theorems hold for an
  arbitrary list, which subsumes those samplings.
* Machine integers (`usize`, `i32`) become `Nat` (screen sizes and all
  coordinates involved are non-negative, and `width / 30` agrees with the
  Rust computation there).
* The key-press queries of `handle_input` become a `Keys` record: each
  field stands for one `is_key_pressed(arrow) || is_key_pressed(letter)`
  disjunction.
* `SceneSwitch` and `GameData` live in `scenes.rs` / `game_data.rs`, which
  are not part of the sources; they are modelled from the spec (see the
  doc comments on those declarations).
-/

/-- Cell types of the maze, mirroring the Rust enum `CellType`. -/
inductive CellType where
  | Wall
  | Path
  | Start
  | Exit
deriving DecidableEq, BEq

/-- Read `grid[y][x]`; out of bounds defaults to `Wall` (the Rust code only
reads in bounds). -/
def getCell (g : List (List CellType)) (y x : Nat) : CellType :=
  (g.getD y []).getD x CellType.Wall

/-- Write `grid[y][x] = c`; out of bounds is a no-op (the Rust code only
writes in bounds). -/
def setCell (g : List (List CellType)) (y x : Nat) (c : CellType) : List (List CellType) :=
  g.set y ((g.getD y []).set x c)

/-- The grid has `h` rows of `w` cells each. -/
def Shaped (g : List (List CellType)) (h w : Nat) : Prop :=
  g.length = h ∧ ∀ row ∈ g, row.length = w

/-- The grid allocated in `MazeScene::new`:
`vec![vec![CellType::Wall; grid_width]; grid_height]`. -/
def mkGrid (grid_width grid_height : Nat) : List (List CellType) :=
  List.replicate grid_height (List.replicate grid_width CellType.Wall)

/-- Step 1 of `generate_simple_maze`: set every cell to `Path`. -/
def fillPath (g : List (List CellType)) (height width : Nat) : List (List CellType) :=
  (List.range height).foldl
    (fun g2 y => (List.range width).foldl (fun g3 x => setCell g3 y x CellType.Path) g2) g

/-- Step 2 of `generate_simple_maze`: walls on columns `0` and `width-1`. -/
def addSideWalls (g : List (List CellType)) (height width : Nat) : List (List CellType) :=
  (List.range height).foldl
    (fun g2 y => setCell (setCell g2 y 0 CellType.Wall) y (width - 1) CellType.Wall) g

/-- Step 3 of `generate_simple_maze`: walls on rows `0` and `height-1`. -/
def addTopBottomWalls (g : List (List CellType)) (height width : Nat) : List (List CellType) :=
  (List.range width).foldl
    (fun g2 x => setCell (setCell g2 0 x CellType.Wall) (height - 1) x CellType.Wall) g

/-- Step 4 of `generate_simple_maze`: the random walls.  Each list entry is
one `(gen_range(1..width-1), gen_range(1..height-1))` sample written as
`grid[y][x] = Wall`. -/
def addRandomWalls (g : List (List CellType)) (walls : List (Nat × Nat)) :
    List (List CellType) :=
  walls.foldl (fun g2 p => setCell g2 p.2 p.1 CellType.Wall) g

/-- Step 5 of `generate_simple_maze`: `for y in 1..height-1`, on even `y`
force `grid[y][width/2] = Path`. -/
def carveMiddle (g : List (List CellType)) (height width : Nat) : List (List CellType) :=
  (List.range' 1 (height - 1 - 1)).foldl
    (fun g2 y => if y % 2 = 0 then setCell g2 y (width / 2) CellType.Path else g2) g

/-- `MazeScene::generate_simple_maze`, with the random samples passed in as
`walls`.  The step order is exactly the source order: fill with `Path`,
side walls, top/bottom walls, random walls, middle-column carve, then the
`Start` and `Exit` stamps. -/
def generate_simple_maze (grid : List (List CellType)) (walls : List (Nat × Nat)) :
    List (List CellType) :=
  let height := grid.length
  let width := (grid.headD []).length
  let g := fillPath grid height width
  let g := addSideWalls g height width
  let g := addTopBottomWalls g height width
  let g := addRandomWalls g walls
  let g := carveMiddle g height width
  let g := setCell g 1 1 CellType.Start
  setCell g (height - 2) (width - 2) CellType.Exit

/-- Modelled from the spec: `GameData` (file `game_data.rs` is not among the
sources).  Section 6 requires a mutable integer point counter and the
current screen height. -/
structure GameData where
  points : Int
  screen_height : Int
deriving DecidableEq

/-- Modelled from the spec: `GameData::score` (file `game_data.rs` is not
among the sources).  Section 6 describes it as a method to add one point. -/
def GameData.score (d : GameData) : GameData :=
  { d with points := d.points + 1 }

/-- Modelled from the spec: the scene pushed on a win.  The only scene this
module ever pushes is `WinScene` (from `menu_scene.rs`, not among the
sources); its internals are irrelevant here. -/
inductive SceneTarget where
  | winScene
deriving DecidableEq

/-- Modelled from the spec: `SceneSwitch` (file `scenes.rs` is not among the
sources).  Section 6 fixes the closed set of signals produced here:
no transition, or push a new scene. -/
inductive SceneSwitch where
  | none
  | push (target : SceneTarget)
deriving DecidableEq

/-- One frame's key-press edges.  Each field models one
`is_key_pressed(arrow) || is_key_pressed(letter)` test of `handle_input`. -/
structure Keys where
  right : Bool
  left : Bool
  down : Bool
  up : Bool
deriving DecidableEq

/-- The scene state, mirroring the Rust struct `MazeScene`. -/
structure MazeScene where
  grid_width : Nat
  grid_height : Nat
  cell_size : Int
  grid : List (List CellType)
  player_x : Nat
  player_y : Nat
  player_speed : Float

/-- The start-position scan of `MazeScene::new`: for each row `y` in order,
find the first `x` with `grid[y][x] == Start` and record `(x, y)`; the
`break` in the source leaves only the inner loop, so a later row with a
`Start` overwrites an earlier hit.  Defaults to `(1, 1)`. -/
def find_start (grid : List (List CellType)) (grid_height grid_width : Nat) : Nat × Nat :=
  (List.range grid_height).foldl
    (fun p y =>
      match (List.range grid_width).find? (fun x => getCell grid y x == CellType.Start) with
      | some x => (x, y)
      | none => p)
    (1, 1)

/-- `MazeScene::new`.  `width` and `height` are the screen size in pixels;
`walls` stands for the random samples consumed by the generator. -/
def MazeScene.new (width height : Nat) (walls : List (Nat × Nat)) : MazeScene :=
  let cell_size : Int := 30
  let grid_width := width / 30
  let grid_height := height / 30
  let grid := generate_simple_maze (mkGrid grid_width grid_height) walls
  let p := find_start grid grid_height grid_width
  { grid_width := grid_width
    grid_height := grid_height
    cell_size := cell_size
    grid := grid
    player_x := p.1
    player_y := p.2
    player_speed := 5.0 }

/-- `MazeScene::is_valid_move`. -/
def MazeScene.is_valid_move (s : MazeScene) (x y : Nat) : Bool :=
  if x ≥ s.grid_width || y ≥ s.grid_height then
    false
  else
    getCell s.grid y x != CellType.Wall

/-- The candidate position computed by `handle_input`: the `new_x` / `new_y`
updates of the source, in source order (right, left, down, up). -/
def MazeScene.candidate (s : MazeScene) (k : Keys) : Nat × Nat :=
  let new_x := s.player_x
  let new_y := s.player_y
  let new_x := if k.right then new_x + 1 else new_x
  let new_x := if k.left then (if new_x > 0 then new_x - 1 else new_x) else new_x
  let new_y := if k.down then new_y + 1 else new_y
  let new_y := if k.up then (if new_y > 0 then new_y - 1 else new_y) else new_y
  (new_x, new_y)

/-- `MazeScene::handle_input` (as implementor of `Scene`): commit the
candidate if `is_valid_move` accepts it, and always signal `None`. -/
def MazeScene.handle_input (s : MazeScene) (k : Keys) : MazeScene × SceneSwitch :=
  let c := s.candidate k
  if s.is_valid_move c.1 c.2 then
    ({ s with player_x := c.1, player_y := c.2 }, SceneSwitch.none)
  else
    (s, SceneSwitch.none)

/-- `MazeScene::update` (as implementor of `Scene`): on the `Exit` cell,
score and push the win scene; `self` is never written, so only the game
data and the switch are returned. -/
def MazeScene.update (s : MazeScene) (_dt : Float) (data : GameData) :
    GameData × SceneSwitch :=
  if getCell s.grid s.player_y s.player_x == CellType.Exit then
    (data.score, SceneSwitch.push SceneTarget.winScene)
  else
    (data, SceneSwitch.none)

/-- `MazeScene::on_enter` (as implementor of `Scene`): reset the score. -/
def MazeScene.on_enter (_s : MazeScene) (data : GameData) : GameData :=
  { data with points := 0 }

/-- The candidate position as claim C5 words it: the leftward (resp. upward)
decrement is applied only if the CURRENT coordinate `player_x` (resp.
`player_y`) is greater than zero.  This definition follows the claim's
words, to be compared with `MazeScene.candidate`, which follows the
source. -/
def candidateClaimC5 (s : MazeScene) (k : Keys) : Nat × Nat :=
  let nx := if k.right then s.player_x + 1 else s.player_x
  let nx := if k.left then (if s.player_x > 0 then nx - 1 else nx) else nx
  let ny := if k.down then s.player_y + 1 else s.player_y
  let ny := if k.up then (if s.player_y > 0 then ny - 1 else ny) else ny
  (nx, ny)

/-- The grid of `generate_simple_maze` on a `w × h` input just before the
`Start` and `Exit` stamps: fill, border walls, random walls and the
middle-column carve, in source order. -/
def preStampGrid (w h : Nat) (walls : List (Nat × Nat)) : List (List CellType) :=
  carveMiddle (addRandomWalls (addTopBottomWalls (addSideWalls
    (fillPath (mkGrid w h) h w) h w) h w) walls) h w

/-- No cell of the grid holds `Start`. -/
def NoStartCell (g : List (List CellType)) : Prop :=
  ∀ y x, getCell g y x ≠ CellType.Start

/-- Only cell `(1, 1)` may hold `Start`. -/
def OnlyStartAt11 (g : List (List CellType)) : Prop :=
  ∀ y x, getCell g y x = CellType.Start → y = 1 ∧ x = 1

/-- A one-cell scene whose player stands on the `Exit` cell (witness data). -/
def sceneOnExit : MazeScene :=
  { grid_width := 1
    grid_height := 1
    cell_size := 30
    grid := [[CellType.Exit]]
    player_x := 0
    player_y := 0
    player_speed := 5.0 }

/-- A one-cell scene whose player stands on a `Path` cell (witness data). -/
def sceneOnPath : MazeScene :=
  { grid_width := 1
    grid_height := 1
    cell_size := 30
    grid := [[CellType.Path]]
    player_x := 0
    player_y := 0
    player_speed := 5.0 }

/-- A `2 × 1` scene with a `Wall` under the player at `(0, 0)` and a `Path`
cell to its right (counterexample data for the guard analysis). -/
def sceneWallPath : MazeScene :=
  { grid_width := 2
    grid_height := 1
    cell_size := 30
    grid := [[CellType.Wall, CellType.Path]]
    player_x := 0
    player_y := 0
    player_speed := 5.0 }

/-- A `3 × 3` all-`Path` scene with the player at `(0, 0)` (witness data). -/
def sceneOpen3 : MazeScene :=
  { grid_width := 3
    grid_height := 3
    cell_size := 30
    grid := [[CellType.Path, CellType.Path, CellType.Path],
             [CellType.Path, CellType.Path, CellType.Path],
             [CellType.Path, CellType.Path, CellType.Path]]
    player_x := 0
    player_y := 0
    player_speed := 5.0 }

/-! ## Basic facts about `getCell` and `setCell` -/

theorem cell_beq_iff (a b : CellType) : (a == b) = true ↔ a = b := by
  cases a <;> cases b <;> decide

theorem cell_bne_iff (a b : CellType) : (a != b) = true ↔ a ≠ b := by
  cases a <;> cases b <;> decide

theorem getCell_eq_getElem? (g : List (List CellType)) (y x : Nat) :
    getCell g y x = ((g[y]?.getD [])[x]?).getD CellType.Wall := by
  unfold getCell
  rw [List.getD_eq_getElem?_getD, List.getD_eq_getElem?_getD]

theorem setCell_length (g : List (List CellType)) (y x : Nat) (c : CellType) :
    (setCell g y x c).length = g.length := by
  unfold setCell
  exact List.length_set ..

theorem getCell_setCell_row (g : List (List CellType)) (y x : Nat) (c : CellType)
    (hy : y < g.length) (x' : Nat) :
    getCell (setCell g y x c) y x' = ((g.getD y []).set x c).getD x' CellType.Wall := by
  rw [getCell_eq_getElem?]
  unfold setCell
  rw [List.getElem?_set_self hy]
  simp only [List.getD_eq_getElem?_getD, Option.getD_some]

theorem setCell_of_length_le (g : List (List CellType)) (y x : Nat) (c : CellType)
    (hy : g.length ≤ y) : setCell g y x c = g := by
  unfold setCell
  exact List.set_eq_of_length_le hy

theorem getCell_setCell_ne (g : List (List CellType)) (y x : Nat) (c : CellType)
    (y' x' : Nat) (h : y ≠ y' ∨ x ≠ x') :
    getCell (setCell g y x c) y' x' = getCell g y' x' := by
  by_cases hy : y = y'
  · subst hy
    have hx : x ≠ x' := h.resolve_left (fun hc => hc rfl)
    by_cases hl : y < g.length
    · rw [getCell_setCell_row g y x c hl x']
      unfold getCell
      simp only [List.getD_eq_getElem?_getD]
      rw [List.getElem?_set_ne hx]
    · rw [setCell_of_length_le g y x c (by omega)]
  · unfold getCell setCell
    simp only [List.getD_eq_getElem?_getD]
    rw [List.getElem?_set_ne hy]

theorem getCell_setCell_self (g : List (List CellType)) (y x : Nat) (c : CellType)
    (hy : y < g.length) (hx : x < (g.getD y []).length) :
    getCell (setCell g y x c) y x = c := by
  rw [getCell_setCell_row g y x c hy x, List.getD_eq_getElem?_getD,
    List.getElem?_set_self (by simpa using hx)]
  rfl

theorem getCell_setCell_cases (g : List (List CellType)) (y x : Nat) (c : CellType)
    (y' x' : Nat) :
    getCell (setCell g y x c) y' x' = getCell g y' x' ∨
      getCell (setCell g y x c) y' x' = c := by
  by_cases hy : y = y'
  · subst hy
    by_cases hx : x = x'
    · subst hx
      by_cases hl : y < g.length
      · by_cases hxl : x < (g.getD y []).length
        · exact Or.inr (getCell_setCell_self g y x c hl hxl)
        · left
          rw [getCell_setCell_row g y x c hl x, List.set_eq_of_length_le (by omega)]
          rfl
      · left
        rw [setCell_of_length_le g y x c (by omega)]
    · exact Or.inl (getCell_setCell_ne g y x c y x' (Or.inr hx))
  · exact Or.inl (getCell_setCell_ne g y x c y' x' (Or.inl hy))

/-! ## Shape preservation -/

theorem shaped_mkGrid (w h : Nat) : Shaped (mkGrid w h) h w := by
  refine ⟨by simp [mkGrid], fun row hrow => ?_⟩
  rw [List.eq_of_mem_replicate hrow]
  simp

theorem shaped_row_length {g : List (List CellType)} {h w : Nat} (hs : Shaped g h w)
    {y : Nat} (hy : y < h) : (g.getD y []).length = w := by
  have hyl : y < g.length := by rw [hs.1]; exact hy
  rw [List.getD_eq_getElem?_getD, List.getElem?_eq_getElem hyl]
  exact hs.2 _ (List.getElem_mem hyl)

theorem setCell_shaped {g : List (List CellType)} {h w : Nat} (hs : Shaped g h w)
    (y x : Nat) (c : CellType) : Shaped (setCell g y x c) h w := by
  by_cases hl : y < g.length
  · constructor
    · rw [setCell_length]; exact hs.1
    · intro row hrow
      rcases List.mem_or_eq_of_mem_set hrow with hmem | heq
      · exact hs.2 row hmem
      · rw [heq, List.length_set]
        exact shaped_row_length hs (hs.1 ▸ hl)
  · rw [setCell_of_length_le g y x c (by omega)]
    exact hs

theorem getCell_setCell_shaped {g : List (List CellType)} {h w : Nat} (hs : Shaped g h w)
    {y x : Nat} (c : CellType) (hy : y < h) (hx : x < w) :
    getCell (setCell g y x c) y x = c :=
  getCell_setCell_self g y x c (by rw [hs.1]; exact hy)
    (by rw [shaped_row_length hs hy]; exact hx)

theorem getCell_mkGrid (w h y x : Nat) : getCell (mkGrid w h) y x = CellType.Wall := by
  rw [getCell_eq_getElem?]
  unfold mkGrid
  rw [List.getElem?_replicate]
  by_cases hy : y < h
  · rw [if_pos hy]
    simp only [Option.getD_some]
    rw [List.getElem?_replicate]
    by_cases hx : x < w
    · rw [if_pos hx]; rfl
    · rw [if_neg hx]; rfl
  · rw [if_neg hy]; rfl

/-! ## Fold combinators -/

theorem foldl_preserve {α β : Type} (f : β → α → β) (P : β → Prop) :
    ∀ (l : List α) (b : β), P b → (∀ x a, a ∈ l → P x → P (f x a)) → P (l.foldl f b) := by
  intro l
  induction l with
  | nil => exact fun b hb _ => hb
  | cons hd tl ih =>
    intro b hb hstep
    simp only [List.foldl_cons]
    exact ih (f b hd) (hstep b hd (List.mem_cons_self hd tl) hb)
      (fun x a ha hx => hstep x a (List.mem_cons_of_mem hd ha) hx)

theorem foldl_establish {α β : Type} (f : β → α → β) (I P : β → Prop) :
    ∀ (l : List α) (a : α), a ∈ l →
      (∀ x b, b ∈ l → I x → I (f x b)) →
      (∀ x, I x → P (f x a)) →
      (∀ x b, b ∈ l → I x → P x → P (f x b)) →
      ∀ b, I b → P (l.foldl f b) := by
  intro l
  induction l with
  | nil => intro a ha; exact absurd ha (List.not_mem_nil a)
  | cons hd tl ih =>
    intro a ha hI hest hpres b hb
    simp only [List.foldl_cons]
    by_cases hmem : a ∈ tl
    · exact ih a hmem (fun x b2 hb2 hx => hI x b2 (List.mem_cons_of_mem hd hb2) hx) hest
        (fun x b2 hb2 hx hp => hpres x b2 (List.mem_cons_of_mem hd hb2) hx hp)
        (f b hd) (hI b hd (List.mem_cons_self hd tl) hb)
    · have hae : a = hd := by
        rcases List.mem_cons.mp ha with h | h
        · exact h
        · exact absurd h hmem
      subst hae
      have hIf : I (f b a) := hI b a (List.mem_cons_self a tl) hb
      have hPf : P (f b a) := hest b hb
      have hfold := foldl_preserve f (fun x => I x ∧ P x) tl (f b a) ⟨hIf, hPf⟩
        (fun x b2 hb2 hx => ⟨hI x b2 (List.mem_cons_of_mem a hb2) hx.1,
          hpres x b2 (List.mem_cons_of_mem a hb2) hx.1 hx.2⟩)
      exact hfold.2

theorem mem_range_one {s n m : Nat} : m ∈ List.range' s n ↔ s ≤ m ∧ m < s + n := by
  rw [List.mem_range']
  constructor
  · rintro ⟨i, hi, rfl⟩
    omega
  · intro h
    exact ⟨m - s, by omega, by omega⟩


/-! ## Shape of the generated grid -/

theorem mkGrid_length (w h : Nat) : (mkGrid w h).length = h := by
  simp [mkGrid]

theorem mkGrid_headD_length (w h : Nat) (hh : 1 ≤ h) :
    ((mkGrid w h).headD []).length = w := by
  cases h with
  | zero => omega
  | succ n => simp [mkGrid, List.replicate_succ]

theorem fillPath_shaped {g : List (List CellType)} {h w : Nat} (hs : Shaped g h w)
    (a b : Nat) : Shaped (fillPath g a b) h w :=
  foldl_preserve _ (fun g2 => Shaped g2 h w) _ g hs
    (fun x _ _ hx => foldl_preserve _ (fun g2 => Shaped g2 h w) _ x hx
      (fun x2 _ _ hx2 => setCell_shaped hx2 _ _ _))

theorem addSideWalls_shaped {g : List (List CellType)} {h w : Nat} (hs : Shaped g h w)
    (a b : Nat) : Shaped (addSideWalls g a b) h w :=
  foldl_preserve _ (fun g2 => Shaped g2 h w) _ g hs
    (fun x _ _ hx => setCell_shaped (setCell_shaped hx _ _ _) _ _ _)

theorem addTopBottomWalls_shaped {g : List (List CellType)} {h w : Nat} (hs : Shaped g h w)
    (a b : Nat) : Shaped (addTopBottomWalls g a b) h w :=
  foldl_preserve _ (fun g2 => Shaped g2 h w) _ g hs
    (fun x _ _ hx => setCell_shaped (setCell_shaped hx _ _ _) _ _ _)

theorem addRandomWalls_shaped {g : List (List CellType)} {h w : Nat} (hs : Shaped g h w)
    (walls : List (Nat × Nat)) : Shaped (addRandomWalls g walls) h w :=
  foldl_preserve _ (fun g2 => Shaped g2 h w) _ g hs
    (fun x _ _ hx => setCell_shaped hx _ _ _)

theorem carveMiddle_shaped {g : List (List CellType)} {h w : Nat} (hs : Shaped g h w)
    (a b : Nat) : Shaped (carveMiddle g a b) h w := by
  refine foldl_preserve _ (fun g2 => Shaped g2 h w) _ g hs (fun x y _ hx => ?_)
  by_cases he : y % 2 = 0
  · simpa [he] using setCell_shaped hx y (b / 2) CellType.Path
  · simpa [he] using hx

theorem generate_shaped {g0 : List (List CellType)} {h w : Nat} (hs : Shaped g0 h w)
    (walls : List (Nat × Nat)) : Shaped (generate_simple_maze g0 walls) h w := by
  unfold generate_simple_maze
  exact setCell_shaped (setCell_shaped (carveMiddle_shaped (addRandomWalls_shaped
    (addTopBottomWalls_shaped (addSideWalls_shaped (fillPath_shaped hs _ _) _ _) _ _) _)
    _ _) _ _ _) _ _ _

theorem generate_mkGrid_eq (w h : Nat) (walls : List (Nat × Nat)) (hh : 1 ≤ h) :
    generate_simple_maze (mkGrid w h) walls =
      setCell (setCell (carveMiddle (addRandomWalls (addTopBottomWalls (addSideWalls
        (fillPath (mkGrid w h) h w) h w) h w) walls) h w) 1 1 CellType.Start)
        (h - 2) (w - 2) CellType.Exit := by
  unfold generate_simple_maze
  rw [mkGrid_length, mkGrid_headD_length w h hh]

/-! ## No cell other than the stamped one is ever `Start` -/

theorem noStart_setCell {g : List (List CellType)} (hg : NoStartCell g)
    (y x : Nat) {c : CellType} (hc : c ≠ CellType.Start) :
    NoStartCell (setCell g y x c) := by
  intro y' x'
  rcases getCell_setCell_cases g y x c y' x' with he | he
  · rw [he]; exact hg y' x'
  · rw [he]; exact hc

theorem noStart_mkGrid (w h : Nat) : NoStartCell (mkGrid w h) := by
  intro y x
  rw [getCell_mkGrid]
  intro hc
  exact CellType.noConfusion hc

theorem noStart_fillPath {g : List (List CellType)} (hg : NoStartCell g) (a b : Nat) :
    NoStartCell (fillPath g a b) :=
  foldl_preserve _ NoStartCell _ g hg
    (fun x _ _ hx => foldl_preserve _ NoStartCell _ x hx
      (fun x2 _ _ hx2 => noStart_setCell hx2 _ _ (fun hc => CellType.noConfusion hc)))

theorem noStart_addSideWalls {g : List (List CellType)} (hg : NoStartCell g) (a b : Nat) :
    NoStartCell (addSideWalls g a b) :=
  foldl_preserve _ NoStartCell _ g hg
    (fun x _ _ hx => noStart_setCell (noStart_setCell hx _ _
      (fun hc => CellType.noConfusion hc)) _ _ (fun hc => CellType.noConfusion hc))

theorem noStart_addTopBottomWalls {g : List (List CellType)} (hg : NoStartCell g)
    (a b : Nat) : NoStartCell (addTopBottomWalls g a b) :=
  foldl_preserve _ NoStartCell _ g hg
    (fun x _ _ hx => noStart_setCell (noStart_setCell hx _ _
      (fun hc => CellType.noConfusion hc)) _ _ (fun hc => CellType.noConfusion hc))

theorem noStart_addRandomWalls {g : List (List CellType)} (hg : NoStartCell g)
    (walls : List (Nat × Nat)) : NoStartCell (addRandomWalls g walls) :=
  foldl_preserve _ NoStartCell _ g hg
    (fun x _ _ hx => noStart_setCell hx _ _ (fun hc => CellType.noConfusion hc))

theorem noStart_carveMiddle {g : List (List CellType)} (hg : NoStartCell g) (a b : Nat) :
    NoStartCell (carveMiddle g a b) := by
  refine foldl_preserve _ NoStartCell _ g hg (fun x y _ hx => ?_)
  by_cases he : y % 2 = 0
  · simpa [he] using noStart_setCell hx y (b / 2) (fun hc => CellType.noConfusion hc)
  · simpa [he] using hx

theorem onlyStart_generate {g0 : List (List CellType)} (hg : NoStartCell g0)
    (walls : List (Nat × Nat)) : OnlyStartAt11 (generate_simple_maze g0 walls) := by
  unfold generate_simple_maze
  intro y x hc
  have h5 : NoStartCell (carveMiddle (addRandomWalls (addTopBottomWalls (addSideWalls
      (fillPath g0 g0.length (g0.headD []).length) g0.length (g0.headD []).length)
      g0.length (g0.headD []).length) walls) g0.length (g0.headD []).length) :=
    noStart_carveMiddle (noStart_addRandomWalls (noStart_addTopBottomWalls
      (noStart_addSideWalls (noStart_fillPath hg _ _) _ _) _ _) _) _ _
  set g5 := carveMiddle (addRandomWalls (addTopBottomWalls (addSideWalls
      (fillPath g0 g0.length (g0.headD []).length) g0.length (g0.headD []).length)
      g0.length (g0.headD []).length) walls) g0.length (g0.headD []).length with hg5
  rcases getCell_setCell_cases (setCell g5 1 1 CellType.Start)
      (g0.length - 2) ((g0.headD []).length - 2) CellType.Exit y x with he | he
  · rw [he] at hc
    rcases getCell_setCell_cases g5 1 1 CellType.Start y x with he2 | he2
    · rw [he2] at hc
      exact absurd hc (h5 y x)
    · by_cases hy1 : y = 1
      · subst hy1
        by_cases hx1 : x = 1
        · exact ⟨rfl, hx1⟩
        · rw [getCell_setCell_ne g5 1 1 CellType.Start 1 x (Or.inr (fun hc2 => hx1 hc2.symm))]
            at hc
          exact absurd hc (h5 1 x)
      · rw [getCell_setCell_ne g5 1 1 CellType.Start y x (Or.inl (fun hc2 => hy1 hc2.symm))]
          at hc
        exact absurd hc (h5 y x)
  · rw [he] at hc
    exact CellType.noConfusion hc

/-! ## Border walls and the middle-column carve -/

theorem generate_mkGrid_preStamp (w h : Nat) (walls : List (Nat × Nat)) (hh : 1 ≤ h) :
    generate_simple_maze (mkGrid w h) walls =
      setCell (setCell (preStampGrid w h walls) 1 1 CellType.Start)
        (h - 2) (w - 2) CellType.Exit := by
  rw [generate_mkGrid_eq w h walls hh]
  rfl

theorem preStampGrid_shaped (w h : Nat) (walls : List (Nat × Nat)) :
    Shaped (preStampGrid w h walls) h w :=
  carveMiddle_shaped (addRandomWalls_shaped (addTopBottomWalls_shaped
    (addSideWalls_shaped (fillPath_shaped (shaped_mkGrid w h) _ _) _ _) _ _) _) _ _

theorem wall_setCell {g : List (List CellType)} {y x : Nat}
    (hw : getCell g y x = CellType.Wall) (y' x' : Nat) :
    getCell (setCell g y' x' CellType.Wall) y x = CellType.Wall := by
  rcases getCell_setCell_cases g y' x' CellType.Wall y x with he | he
  · rw [he]; exact hw
  · exact he

theorem wall_addTopBottomWalls {g : List (List CellType)} {y x : Nat}
    (hw : getCell g y x = CellType.Wall) (a b : Nat) :
    getCell (addTopBottomWalls g a b) y x = CellType.Wall :=
  foldl_preserve _ (fun g2 => getCell g2 y x = CellType.Wall) _ g hw
    (fun g2 _ _ hg2 => wall_setCell (wall_setCell hg2 _ _) _ _)

theorem wall_addRandomWalls {g : List (List CellType)} {y x : Nat}
    (hw : getCell g y x = CellType.Wall) (walls : List (Nat × Nat)) :
    getCell (addRandomWalls g walls) y x = CellType.Wall :=
  foldl_preserve _ (fun g2 => getCell g2 y x = CellType.Wall) _ g hw
    (fun g2 _ _ hg2 => wall_setCell hg2 _ _)

theorem addSideWalls_col {g : List (List CellType)} {h w : Nat} (hs : Shaped g h w)
    (hw : 2 ≤ w) {y : Nat} (hy : y < h) :
    getCell (addSideWalls g h w) y 0 = CellType.Wall ∧
      getCell (addSideWalls g h w) y (w - 1) = CellType.Wall := by
  refine foldl_establish _ (fun g2 => Shaped g2 h w)
    (fun g2 => getCell g2 y 0 = CellType.Wall ∧ getCell g2 y (w - 1) = CellType.Wall)
    (List.range h) y (List.mem_range.mpr hy)
    (fun g2 _ _ hg2 => setCell_shaped (setCell_shaped hg2 _ _ _) _ _ _)
    (fun g2 hg2 => ?_) (fun g2 b hb hg2 hp => ?_) g hs
  · constructor
    · rw [getCell_setCell_ne _ y (w - 1) CellType.Wall y 0 (Or.inr (by omega))]
      exact getCell_setCell_shaped hg2 CellType.Wall hy (by omega)
    · exact getCell_setCell_shaped (setCell_shaped hg2 _ _ _) CellType.Wall hy (by omega)
  · by_cases hby : b = y
    · subst hby
      constructor
      · rw [getCell_setCell_ne _ b (w - 1) CellType.Wall b 0 (Or.inr (by omega))]
        exact getCell_setCell_shaped hg2 CellType.Wall hy (by omega)
      · exact getCell_setCell_shaped (setCell_shaped hg2 _ _ _) CellType.Wall hy (by omega)
    · constructor
      · rw [getCell_setCell_ne _ b (w - 1) CellType.Wall y 0 (Or.inl (fun hc => hby hc)),
          getCell_setCell_ne _ b 0 CellType.Wall y 0 (Or.inl (fun hc => hby hc))]
        exact hp.1
      · rw [getCell_setCell_ne _ b (w - 1) CellType.Wall y (w - 1) (Or.inl (fun hc => hby hc)),
          getCell_setCell_ne _ b 0 CellType.Wall y (w - 1) (Or.inl (fun hc => hby hc))]
        exact hp.2

theorem addTopBottomWalls_row {g : List (List CellType)} {h w : Nat} (hs : Shaped g h w)
    (hh : 2 ≤ h) {x : Nat} (hx : x < w) :
    getCell (addTopBottomWalls g h w) 0 x = CellType.Wall ∧
      getCell (addTopBottomWalls g h w) (h - 1) x = CellType.Wall := by
  refine foldl_establish _ (fun g2 => Shaped g2 h w)
    (fun g2 => getCell g2 0 x = CellType.Wall ∧ getCell g2 (h - 1) x = CellType.Wall)
    (List.range w) x (List.mem_range.mpr hx)
    (fun g2 _ _ hg2 => setCell_shaped (setCell_shaped hg2 _ _ _) _ _ _)
    (fun g2 hg2 => ?_) (fun g2 b hb hg2 hp => ?_) g hs
  · constructor
    · rw [getCell_setCell_ne _ (h - 1) x CellType.Wall 0 x (Or.inl (by omega))]
      exact getCell_setCell_shaped hg2 CellType.Wall (by omega) hx
    · exact getCell_setCell_shaped (setCell_shaped hg2 _ _ _) CellType.Wall (by omega) hx
  · by_cases hbx : b = x
    · subst hbx
      constructor
      · rw [getCell_setCell_ne _ (h - 1) b CellType.Wall 0 b (Or.inl (by omega))]
        exact getCell_setCell_shaped hg2 CellType.Wall (by omega) hx
      · exact getCell_setCell_shaped (setCell_shaped hg2 _ _ _) CellType.Wall (by omega) hx
    · constructor
      · rw [getCell_setCell_ne _ (h - 1) b CellType.Wall 0 x (Or.inr (fun hc => hbx hc)),
          getCell_setCell_ne _ 0 b CellType.Wall 0 x (Or.inr (fun hc => hbx hc))]
        exact hp.1
      · rw [getCell_setCell_ne _ (h - 1) b CellType.Wall (h - 1) x (Or.inr (fun hc => hbx hc)),
          getCell_setCell_ne _ 0 b CellType.Wall (h - 1) x (Or.inr (fun hc => hbx hc))]
        exact hp.2

theorem carveMiddle_ne {g : List (List CellType)} {h w y x : Nat}
    (hne : ∀ y2, 1 ≤ y2 → y2 < h - 1 → y ≠ y2 ∨ x ≠ w / 2) :
    getCell (carveMiddle g h w) y x = getCell g y x := by
  refine foldl_preserve _ (fun g2 => getCell g2 y x = getCell g y x) _ g rfl
    (fun g2 y2 hy2 hg2 => ?_)
  have hm := mem_range_one.mp hy2
  by_cases he : y2 % 2 = 0
  · have hny : y2 ≠ y ∨ w / 2 ≠ x := by
      rcases hne y2 (by omega) (by omega) with hc | hc
      · exact Or.inl (fun h2 => hc h2.symm)
      · exact Or.inr (fun h2 => hc h2.symm)
    rw [if_pos he]
    show getCell (setCell g2 y2 (w / 2) CellType.Path) y x = getCell g y x
    rw [getCell_setCell_ne g2 y2 (w / 2) CellType.Path y x hny]
    exact hg2
  · rw [if_neg he]
    exact hg2

theorem carveMiddle_path {g : List (List CellType)} {h w : Nat} (hs : Shaped g h w)
    (hw : 1 ≤ w) {y : Nat} (hy1 : 1 ≤ y) (hy2 : y < h - 1) (he : y % 2 = 0) :
    getCell (carveMiddle g h w) y (w / 2) = CellType.Path := by
  refine foldl_establish _ (fun g2 => Shaped g2 h w)
    (fun g2 => getCell g2 y (w / 2) = CellType.Path)
    (List.range' 1 (h - 1 - 1)) y (mem_range_one.mpr ⟨hy1, by omega⟩)
    (fun g2 y2 _ hg2 => ?_) (fun g2 hg2 => ?_) (fun g2 b hb hg2 hp => ?_) g hs
  · by_cases he2 : y2 % 2 = 0
    · rw [if_pos he2]
      exact setCell_shaped hg2 y2 (w / 2) CellType.Path
    · rw [if_neg he2]
      exact hg2
  · rw [if_pos he]
    exact getCell_setCell_shaped hg2 CellType.Path (by omega) (by omega)
  · by_cases he2 : b % 2 = 0
    · rw [if_pos he2]
      by_cases hby : b = y
      · subst hby
        exact getCell_setCell_shaped hg2 CellType.Path (by omega) (by omega)
      · show getCell (setCell g2 b (w / 2) CellType.Path) y (w / 2) = CellType.Path
        rw [getCell_setCell_ne g2 b (w / 2) CellType.Path y (w / 2)
          (Or.inl (fun hc => hby hc))]
        exact hp
    · rw [if_neg he2]
      exact hp

/-! ## Cells of the generated grid -/

theorem generate_cell_exit (w h : Nat) (walls : List (Nat × Nat)) (hw : 3 ≤ w)
    (hh : 3 ≤ h) :
    getCell (generate_simple_maze (mkGrid w h) walls) (h - 2) (w - 2) = CellType.Exit := by
  rw [generate_mkGrid_preStamp w h walls (by omega)]
  exact getCell_setCell_shaped
    (setCell_shaped (preStampGrid_shaped w h walls) 1 1 CellType.Start)
    CellType.Exit (by omega) (by omega)

theorem generate_cell_start (w h : Nat) (walls : List (Nat × Nat)) (hw : 3 ≤ w)
    (hh : 3 ≤ h) (hne : ¬(w = 3 ∧ h = 3)) :
    getCell (generate_simple_maze (mkGrid w h) walls) 1 1 = CellType.Start := by
  rw [generate_mkGrid_preStamp w h walls (by omega)]
  rw [getCell_setCell_ne _ (h - 2) (w - 2) CellType.Exit 1 1 (by omega)]
  exact getCell_setCell_shaped (preStampGrid_shaped w h walls) CellType.Start
    (by omega) (by omega)

theorem generate_cell_start_33 (walls : List (Nat × Nat)) :
    getCell (generate_simple_maze (mkGrid 3 3) walls) 1 1 = CellType.Exit := by
  rw [generate_mkGrid_preStamp 3 3 walls (by omega)]
  exact getCell_setCell_shaped
    (setCell_shaped (preStampGrid_shaped 3 3 walls) 1 1 CellType.Start)
    CellType.Exit (by omega) (by omega)

theorem generate_cell_start_or_exit (w h : Nat) (walls : List (Nat × Nat)) (hw : 3 ≤ w)
    (hh : 3 ≤ h) :
    getCell (generate_simple_maze (mkGrid w h) walls) 1 1 = CellType.Start ∨
      getCell (generate_simple_maze (mkGrid w h) walls) 1 1 = CellType.Exit := by
  by_cases h33 : w = 3 ∧ h = 3
  · rcases h33 with ⟨rfl, rfl⟩
    exact Or.inr (generate_cell_start_33 walls)
  · exact Or.inl (generate_cell_start w h walls hw hh h33)

theorem generate_border (w h : Nat) (walls : List (Nat × Nat)) (y x : Nat) (hw : 3 ≤ w)
    (hh : 3 ≤ h) (hy : y < h) (hx : x < w)
    (hb : y = 0 ∨ y = h - 1 ∨ x = 0 ∨ x = w - 1) :
    getCell (generate_simple_maze (mkGrid w h) walls) y x = CellType.Wall := by
  rw [generate_mkGrid_preStamp w h walls (by omega)]
  rw [getCell_setCell_ne _ (h - 2) (w - 2) CellType.Exit y x (by omega)]
  rw [getCell_setCell_ne _ 1 1 CellType.Start y x (by omega)]
  unfold preStampGrid
  rw [carveMiddle_ne (fun y2 h1 h2 => by omega)]
  have hsF : Shaped (fillPath (mkGrid w h) h w) h w :=
    fillPath_shaped (shaped_mkGrid w h) h w
  have hsA : Shaped (addSideWalls (fillPath (mkGrid w h) h w) h w) h w :=
    addSideWalls_shaped hsF h w
  rcases hb with h1 | h1 | h1 | h1
  · subst h1
    exact wall_addRandomWalls (addTopBottomWalls_row hsA (by omega) hx).1 walls
  · subst h1
    exact wall_addRandomWalls (addTopBottomWalls_row hsA (by omega) hx).2 walls
  · subst h1
    exact wall_addRandomWalls
      (wall_addTopBottomWalls (addSideWalls_col hsF (by omega) hy).1 h w) walls
  · subst h1
    exact wall_addRandomWalls
      (wall_addTopBottomWalls (addSideWalls_col hsF (by omega) hy).2 h w) walls

theorem generate_middle_path (w h : Nat) (walls : List (Nat × Nat)) (y : Nat) (hw : 3 ≤ w)
    (hh : 3 ≤ h) (hy1 : 1 ≤ y) (hy2 : y ≤ h - 2) (he : y % 2 = 0)
    (hn1 : ¬(y = 1 ∧ w / 2 = 1)) (hn2 : ¬(y = h - 2 ∧ w / 2 = w - 2)) :
    getCell (generate_simple_maze (mkGrid w h) walls) y (w / 2) = CellType.Path := by
  rw [generate_mkGrid_preStamp w h walls (by omega)]
  rw [getCell_setCell_ne _ (h - 2) (w - 2) CellType.Exit y (w / 2) (by omega)]
  rw [getCell_setCell_ne _ 1 1 CellType.Start y (w / 2) (by omega)]
  unfold preStampGrid
  exact carveMiddle_path
    (addRandomWalls_shaped (addTopBottomWalls_shaped (addSideWalls_shaped
      (fillPath_shaped (shaped_mkGrid w h) h w) h w) h w) walls)
    (by omega) hy1 (by omega) he

/-! ## The start-position scan and the constructor -/

theorem find_start_eq (grid : List (List CellType)) (gh gw : Nat)
    (honly : OnlyStartAt11 grid) : find_start grid gh gw = (1, 1) := by
  refine foldl_preserve _ (fun p => p = (1, 1)) _ _ rfl (fun p y hy hp => ?_)
  cases hfind : (List.range gw).find? (fun x => getCell grid y x == CellType.Start) with
  | none => simpa [hfind] using hp
  | some x =>
    have hpx := List.find?_some hfind
    have h11 := honly y x ((cell_beq_iff (getCell grid y x) CellType.Start).mp hpx)
    simp [hfind, h11.1, h11.2]

theorem new_player_eq (width height : Nat) (walls : List (Nat × Nat)) :
    (MazeScene.new width height walls).player_x = 1 ∧
      (MazeScene.new width height walls).player_y = 1 := by
  have honly : OnlyStartAt11
      (generate_simple_maze (mkGrid (width / 30) (height / 30)) walls) :=
    onlyStart_generate (noStart_mkGrid _ _) walls
  have hf := find_start_eq
    (generate_simple_maze (mkGrid (width / 30) (height / 30)) walls)
    (height / 30) (width / 30) honly
  unfold MazeScene.new
  simp [hf]

/-! ## Facts about `is_valid_move`, `candidate` and `handle_input` -/

theorem is_valid_move_iff (s : MazeScene) (x y : Nat) :
    s.is_valid_move x y = true ↔
      x < s.grid_width ∧ y < s.grid_height ∧ getCell s.grid y x ≠ CellType.Wall := by
  unfold MazeScene.is_valid_move
  by_cases hb : (x ≥ s.grid_width || y ≥ s.grid_height) = true
  · rw [if_pos hb]
    simp only [Bool.or_eq_true, decide_eq_true_eq] at hb
    constructor
    · intro hc
      exact absurd hc (by simp)
    · rintro ⟨h1, h2, h3⟩
      exfalso
      omega
  · rw [if_neg hb]
    simp only [Bool.or_eq_true, decide_eq_true_eq, not_or, Nat.not_le] at hb
    rw [cell_bne_iff]
    exact ⟨fun hc => ⟨hb.1, hb.2, hc⟩, fun hc => hc.2.2⟩

theorem candidate_eq (s : MazeScene) (k : Keys) :
    s.candidate k =
      ((if k.right then s.player_x + 1 else s.player_x) -
         (if k.left = true ∧ (0 < s.player_x ∨ k.right = true) then 1 else 0),
       (if k.down then s.player_y + 1 else s.player_y) -
         (if k.up = true ∧ (0 < s.player_y ∨ k.down = true) then 1 else 0)) := by
  unfold MazeScene.candidate
  rcases k with ⟨r, l, d, u⟩
  cases r <;> cases l <;> cases d <;> cases u <;>
    simp [Prod.ext_iff] <;> split_ifs <;> omega

/-! ## The claims -/

/-- Claim C1: for every grid, `is_valid_move(x, y)` returns false when
`x ≥ grid_width` or `y ≥ grid_height`, returns false when the cell at
`(x, y)` is `Wall`, and returns true in every other case (the cell is
`Path`, `Start`, or `Exit`).  Stated as the complete characterisation of
the boolean result. -/
theorem is_valid_move_spec (s : MazeScene) (x y : Nat) :
    s.is_valid_move x y = true ↔
      x < s.grid_width ∧ y < s.grid_height ∧
        (getCell s.grid y x = CellType.Path ∨ getCell s.grid y x = CellType.Start ∨
          getCell s.grid y x = CellType.Exit) := by
  have hcell : getCell s.grid y x ≠ CellType.Wall ↔
      (getCell s.grid y x = CellType.Path ∨ getCell s.grid y x = CellType.Start ∨
        getCell s.grid y x = CellType.Exit) := by
    cases hc : getCell s.grid y x <;> simp
  rw [is_valid_move_iff, hcell]

/-- Claim C2 counterexample: on the smallest admitted grid, `3 × 3`, the
`Exit` stamp at `(height-2, width-2) = (1, 1)` overwrites the `Start`
stamp, so cell `(1, 1)` is not `Start` even though `width ≥ 3` and
`height ≥ 3`. -/
theorem start_stamp_counterexample :
    3 ≤ 3 ∧ 3 ≤ 3 ∧
      getCell (generate_simple_maze (mkGrid 3 3) []) 1 1 ≠ CellType.Start := by
  decide

/-- Claim C2 (amended): for every generated grid with width ≥ 3 and
height ≥ 3, the cell at row `height-2`, column `width-2` is `Exit`, and the
cell at row 1, column 1 is `Start` unless `width = 3` and `height = 3`, in
which case the `Exit` stamp lands on `(1, 1)` and overwrites the `Start`
stamp, leaving `Exit` there. -/
theorem start_exit_stamp_spec (w h : Nat) (walls : List (Nat × Nat)) (hw : 3 ≤ w)
    (hh : 3 ≤ h) :
    getCell (generate_simple_maze (mkGrid w h) walls) (h - 2) (w - 2) = CellType.Exit ∧
      (¬(w = 3 ∧ h = 3) →
        getCell (generate_simple_maze (mkGrid w h) walls) 1 1 = CellType.Start) ∧
      (w = 3 ∧ h = 3 →
        getCell (generate_simple_maze (mkGrid w h) walls) 1 1 = CellType.Exit) :=
  ⟨generate_cell_exit w h walls hw hh,
   fun hne => generate_cell_start w h walls hw hh hne,
   fun h33 => by
     rcases h33 with ⟨rfl, rfl⟩
     exact generate_cell_start_33 walls⟩

/-- Witness for the amended claim C2 on a concrete `4 × 4` grid. -/
theorem start_exit_stamp_spec_witness :
    getCell (generate_simple_maze (mkGrid 4 4) []) 2 2 = CellType.Exit ∧
      getCell (generate_simple_maze (mkGrid 4 4) []) 1 1 = CellType.Start := by
  have h := start_exit_stamp_spec 4 4 [] (by decide) (by decide)
  exact ⟨h.1, h.2.1 (by decide)⟩

/-- Claim C3: for every generated grid with width ≥ 3 and height ≥ 3, every
border cell (row 0, row `height-1`, column 0, column `width-1`) is `Wall`,
for any outcome of the random wall placement. -/
theorem border_walls_spec (w h : Nat) (walls : List (Nat × Nat)) (y x : Nat)
    (hw : 3 ≤ w) (hh : 3 ≤ h) (hy : y < h) (hx : x < w)
    (hb : y = 0 ∨ y = h - 1 ∨ x = 0 ∨ x = w - 1) :
    getCell (generate_simple_maze (mkGrid w h) walls) y x = CellType.Wall :=
  generate_border w h walls y x hw hh hy hx hb

/-- Witness for claim C3 on a concrete `4 × 4` grid with one random wall. -/
theorem border_walls_spec_witness :
    getCell (generate_simple_maze (mkGrid 4 4) [(1, 2)]) 0 2 = CellType.Wall :=
  border_walls_spec 4 4 [(1, 2)] 0 2 (by decide) (by decide) (by decide) (by decide)
    (Or.inl rfl)

/-- Claim C4: `update` signals a push of the win scene and increments the
score by exactly one if and only if the cell at the current player position
is `Exit`; otherwise it signals no transition and leaves the score (and the
scene, which `update` never writes) unchanged; and a second call while the
player remains on the `Exit` cell increments the score again. -/
theorem update_exit_spec (s : MazeScene) (dt : Float) (d : GameData) :
    (getCell s.grid s.player_y s.player_x = CellType.Exit →
      s.update dt d = ({ points := d.points + 1, screen_height := d.screen_height },
        SceneSwitch.push SceneTarget.winScene)) ∧
    (getCell s.grid s.player_y s.player_x ≠ CellType.Exit →
      s.update dt d = (d, SceneSwitch.none)) ∧
    ((s.update dt d).2 = SceneSwitch.push SceneTarget.winScene ∧
        (s.update dt d).1.points = d.points + 1 ↔
      getCell s.grid s.player_y s.player_x = CellType.Exit) ∧
    (getCell s.grid s.player_y s.player_x = CellType.Exit →
      (s.update dt ((s.update dt d).1)).1.points = d.points + 2) := by
  by_cases hc : getCell s.grid s.player_y s.player_x = CellType.Exit
  · have hb : (getCell s.grid s.player_y s.player_x == CellType.Exit) = true :=
      (cell_beq_iff _ _).mpr hc
    have hupd : ∀ d2 : GameData,
        s.update dt d2 = (d2.score, SceneSwitch.push SceneTarget.winScene) := by
      intro d2
      unfold MazeScene.update
      rw [if_pos hb]
    refine ⟨fun _ => ?_, fun hne => absurd hc hne, ?_, fun _ => ?_⟩
    · rw [hupd d]
      rfl
    · rw [hupd d]
      simp [hc, GameData.score]
    · calc (s.update dt ((s.update dt d).1)).1.points
          = (s.update dt d.score).1.points := by rw [hupd d]
        _ = (d.score.score).points := by rw [hupd d.score]
        _ = d.points + 2 := by
            show d.points + 1 + 1 = d.points + 2
            omega
  · have hb : (getCell s.grid s.player_y s.player_x == CellType.Exit) = false := by
      cases hbe : (getCell s.grid s.player_y s.player_x == CellType.Exit) with
      | true => exact absurd ((cell_beq_iff _ _).mp hbe) hc
      | false => rfl
    have hupd : ∀ d2 : GameData, s.update dt d2 = (d2, SceneSwitch.none) := by
      intro d2
      unfold MazeScene.update
      rw [if_neg (by rw [hb]; exact Bool.false_ne_true)]
    refine ⟨fun he => absurd he hc, fun _ => hupd d, ?_, fun he => absurd he hc⟩
    rw [hupd d]
    simp [hc]

/-- Witness for claim C4: on a one-cell `Exit` scene `update` scores and
pushes, on a one-cell `Path` scene it does nothing, and a second call on
the `Exit` scene scores again. -/
theorem update_exit_spec_witness :
    sceneOnExit.update 0.0 ⟨0, 600⟩ =
        ({ points := 0 + 1, screen_height := 600 }, SceneSwitch.push SceneTarget.winScene) ∧
      sceneOnPath.update 0.0 ⟨0, 600⟩ = (⟨0, 600⟩, SceneSwitch.none) ∧
      (sceneOnExit.update 0.0 ((sceneOnExit.update 0.0 ⟨0, 600⟩).1)).1.points = 0 + 2 :=
  ⟨(update_exit_spec sceneOnExit 0.0 ⟨0, 600⟩).1 (by decide),
   (update_exit_spec sceneOnPath 0.0 ⟨0, 600⟩).2.1 (by decide),
   (update_exit_spec sceneOnExit 0.0 ⟨0, 600⟩).2.2.2 (by decide)⟩

/-- Claim C5 counterexample: with the player at `x = 0` and Right and Left
pressed in the same frame, the source applies the leftward decrement (its
guard tests the already-incremented working copy `new_x`, not the current
coordinate), so the computed candidate is `(0, 0)`, while a guard on the
CURRENT coordinate as the claim words it would leave the candidate at
`(1, 0)`. -/
theorem left_guard_counterexample :
    sceneWallPath.player_x = 0 ∧
      MazeScene.candidate sceneWallPath ⟨true, true, false, false⟩ = (0, 0) ∧
      candidateClaimC5 sceneWallPath ⟨true, true, false, false⟩ = (1, 0) ∧
      MazeScene.candidate sceneWallPath ⟨true, true, false, false⟩ ≠
        candidateClaimC5 sceneWallPath ⟨true, true, false, false⟩ := by
  decide

/-- Claim C5 (amended): the rightward and downward increments are applied
unconditionally when their keys are pressed, but the leftward (resp.
upward) decrement is guarded on the partially updated working copy: it is
applied exactly when Left (resp. Up) is pressed and the current coordinate
is positive OR Right (resp. Down) is pressed in the same frame. -/
theorem candidate_guard_spec (s : MazeScene) (k : Keys) :
    s.candidate k =
      ((if k.right then s.player_x + 1 else s.player_x) -
         (if k.left = true ∧ (0 < s.player_x ∨ k.right = true) then 1 else 0),
       (if k.down then s.player_y + 1 else s.player_y) -
         (if k.up = true ∧ (0 < s.player_y ∨ k.down = true) then 1 else 0)) :=
  candidate_eq s k

/-- Claim C6: `handle_input` either commits the whole candidate position
(when `is_valid_move` accepts it) or leaves the player position exactly as
it was (when `is_valid_move` rejects it) — no partial application of one
axis — and it returns the no-transition signal in every case. -/
theorem commit_all_or_nothing_spec (s : MazeScene) (k : Keys) :
    (s.handle_input k).2 = SceneSwitch.none ∧
      (s.is_valid_move (s.candidate k).1 (s.candidate k).2 = true →
        (s.handle_input k).1 =
          { s with player_x := (s.candidate k).1, player_y := (s.candidate k).2 }) ∧
      (s.is_valid_move (s.candidate k).1 (s.candidate k).2 = false →
        (s.handle_input k).1 = s) := by
  simp only [MazeScene.handle_input]
  by_cases hv : s.is_valid_move (s.candidate k).1 (s.candidate k).2 = true
  · rw [if_pos hv]
    exact ⟨rfl, fun _ => rfl, fun hf => absurd hv (by rw [hf]; exact Bool.false_ne_true)⟩
  · rw [if_neg hv]
    exact ⟨rfl, fun ht => absurd ht hv, fun _ => rfl⟩

/-- Witness for claim C6: a committed move on `sceneWallPath` and a
discarded move on `sceneOnPath` (candidate out of bounds), both with the
no-transition signal. -/
theorem commit_all_or_nothing_spec_witness :
    ((sceneWallPath.handle_input ⟨true, false, false, false⟩).2 = SceneSwitch.none ∧
      (sceneWallPath.handle_input ⟨true, false, false, false⟩).1 =
        { sceneWallPath with player_x := 1, player_y := 0 }) ∧
      (sceneOnPath.handle_input ⟨true, false, false, false⟩).1 = sceneOnPath :=
  ⟨⟨(commit_all_or_nothing_spec sceneWallPath ⟨true, false, false, false⟩).1,
    (commit_all_or_nothing_spec sceneWallPath ⟨true, false, false, false⟩).2.1 (by decide)⟩,
   (commit_all_or_nothing_spec sceneOnPath ⟨true, false, false, false⟩).2.2 (by decide)⟩

/-- Claim C7: the pressed directions are applied additively in the fixed
order right, left, down, up; pressing two opposite directions in one frame
yields zero net displacement on that axis, and pressing Right and Down
together with a passable target moves the player by `(+1, +1)` in that
single frame. -/
theorem diagonal_movement_spec (s : MazeScene) (k : Keys) :
    (k.right = true → k.left = true → (s.candidate k).1 = s.player_x) ∧
      (k.down = true → k.up = true → (s.candidate k).2 = s.player_y) ∧
      (k = ⟨true, false, true, false⟩ →
        s.is_valid_move (s.player_x + 1) (s.player_y + 1) = true →
        (s.handle_input k).1.player_x = s.player_x + 1 ∧
          (s.handle_input k).1.player_y = s.player_y + 1) := by
  refine ⟨fun hr hl => ?_, fun hd hu => ?_, fun hk hv => ?_⟩
  · rw [candidate_eq]
    simp [hr, hl]
  · rw [candidate_eq]
    simp [hd, hu]
  · subst hk
    have hc : s.candidate ⟨true, false, true, false⟩ = (s.player_x + 1, s.player_y + 1) := by
      rw [candidate_eq]
      simp
    simp only [MazeScene.handle_input, hc]
    rw [if_pos hv]
    exact ⟨rfl, rfl⟩

/-- Witness for claim C7: on the open `3 × 3` scene a Right+Down frame moves
the player from `(0, 0)` to `(1, 1)`, and a Right+Left frame leaves the x
coordinate unchanged. -/
theorem diagonal_movement_spec_witness :
    sceneOpen3.is_valid_move 1 1 = true ∧
      (sceneOpen3.handle_input ⟨true, false, true, false⟩).1.player_x = 1 ∧
      (sceneOpen3.handle_input ⟨true, false, true, false⟩).1.player_y = 1 ∧
      (sceneOpen3.candidate ⟨true, true, false, false⟩).1 = sceneOpen3.player_x := by
  have h := (diagonal_movement_spec sceneOpen3 ⟨true, false, true, false⟩).2.2 rfl (by decide)
  exact ⟨by decide, h.1, h.2,
    (diagonal_movement_spec sceneOpen3 ⟨true, true, false, false⟩).1 rfl rfl⟩

/-- Claim C8: for every generated grid with width ≥ 3 and height ≥ 3 and
every even row `y` with `1 ≤ y ≤ height-2`, the cell `grid[y][width/2]` is
`Path` after generation, except when the Start/Exit stamping step overwrote
that cell, i.e. when `(y, width/2)` equals `(1, 1)` or
`(height-2, width-2)`. -/
theorem middle_column_path_spec (w h : Nat) (walls : List (Nat × Nat)) (y : Nat)
    (hw : 3 ≤ w) (hh : 3 ≤ h) (hy1 : 1 ≤ y) (hy2 : y ≤ h - 2) (he : y % 2 = 0)
    (hn1 : (y, w / 2) ≠ (1, 1)) (hn2 : (y, w / 2) ≠ (h - 2, w - 2)) :
    getCell (generate_simple_maze (mkGrid w h) walls) y (w / 2) = CellType.Path := by
  apply generate_middle_path w h walls y hw hh hy1 hy2 he
  · intro hcc
    exact hn1 (by rw [hcc.1, hcc.2])
  · intro hcc
    exact hn2 (by rw [hcc.1, hcc.2])

/-- Witness for claim C8: on a `5 × 5` grid whose random wall list even hits
the cell `(2, 2)`, the carve step forces `grid[2][5/2] = grid[2][2]` back to
`Path`. -/
theorem middle_column_path_spec_witness :
    getCell (generate_simple_maze (mkGrid 5 5) [(2, 2)]) 2 2 = CellType.Path :=
  middle_column_path_spec 5 5 [(2, 2)] 2 (by decide) (by decide) (by decide) (by decide)
    (by decide) (by decide) (by decide)

/-- Claim C9 (implicit invariant): if the player position is within grid
bounds and its cell is not `Wall`, then after any call of `handle_input`
with any keys the player position is still within grid bounds and its cell
is still not `Wall`; and a freshly constructed scene (grid at least `3 × 3`)
satisfies the invariant, since the stamped start cell is `Start` or `Exit`. -/
theorem player_never_on_wall_spec :
    (∀ (s : MazeScene) (k : Keys),
      s.player_x < s.grid_width → s.player_y < s.grid_height →
      getCell s.grid s.player_y s.player_x ≠ CellType.Wall →
      (s.handle_input k).1.player_x < (s.handle_input k).1.grid_width ∧
        (s.handle_input k).1.player_y < (s.handle_input k).1.grid_height ∧
        getCell (s.handle_input k).1.grid (s.handle_input k).1.player_y
          (s.handle_input k).1.player_x ≠ CellType.Wall) ∧
    (∀ (width height : Nat) (walls : List (Nat × Nat)),
      3 ≤ width / 30 → 3 ≤ height / 30 →
      (MazeScene.new width height walls).player_x <
          (MazeScene.new width height walls).grid_width ∧
        (MazeScene.new width height walls).player_y <
          (MazeScene.new width height walls).grid_height ∧
        getCell (MazeScene.new width height walls).grid
          (MazeScene.new width height walls).player_y
          (MazeScene.new width height walls).player_x ≠ CellType.Wall) := by
  constructor
  · intro s k hx hy hcell
    simp only [MazeScene.handle_input]
    by_cases hv : s.is_valid_move (s.candidate k).1 (s.candidate k).2 = true
    · rw [if_pos hv]
      have h3 := (is_valid_move_iff s (s.candidate k).1 (s.candidate k).2).mp hv
      exact ⟨h3.1, h3.2.1, h3.2.2⟩
    · rw [if_neg hv]
      exact ⟨hx, hy, hcell⟩
  · intro width height walls hw hh
    have hp := new_player_eq width height walls
    rw [hp.1, hp.2]
    refine ⟨?_, ?_, ?_⟩
    · show 1 < width / 30
      omega
    · show 1 < height / 30
      omega
    · show getCell (generate_simple_maze (mkGrid (width / 30) (height / 30)) walls) 1 1 ≠
        CellType.Wall
      rcases generate_cell_start_or_exit (width / 30) (height / 30) walls hw hh with hc | hc
      · rw [hc]
        decide
      · rw [hc]
        decide

/-- Witness for claim C9: the invariant is preserved on a concrete frame of
the open `3 × 3` scene, and holds for the freshly constructed scene of a
`120 × 150` screen. -/
theorem player_never_on_wall_spec_witness :
    ((sceneOpen3.handle_input ⟨false, false, true, false⟩).1.player_x <
        (sceneOpen3.handle_input ⟨false, false, true, false⟩).1.grid_width ∧
      (sceneOpen3.handle_input ⟨false, false, true, false⟩).1.player_y <
        (sceneOpen3.handle_input ⟨false, false, true, false⟩).1.grid_height ∧
      getCell (sceneOpen3.handle_input ⟨false, false, true, false⟩).1.grid
        (sceneOpen3.handle_input ⟨false, false, true, false⟩).1.player_y
        (sceneOpen3.handle_input ⟨false, false, true, false⟩).1.player_x ≠
          CellType.Wall) ∧
    ((MazeScene.new 120 150 []).player_x < (MazeScene.new 120 150 []).grid_width ∧
      (MazeScene.new 120 150 []).player_y < (MazeScene.new 120 150 []).grid_height ∧
      getCell (MazeScene.new 120 150 []).grid (MazeScene.new 120 150 []).player_y
        (MazeScene.new 120 150 []).player_x ≠ CellType.Wall) :=
  ⟨player_never_on_wall_spec.1 sceneOpen3 ⟨false, false, true, false⟩ (by decide) (by decide)
      (by decide),
   player_never_on_wall_spec.2 120 150 [] (by decide) (by decide)⟩

/-- Claim C10: for every screen size yielding a grid with width ≥ 3 and
height ≥ 3, the constructor sets the initial player position to exactly
`(1, 1)`: the scan finds the stamped `Start` there (or, on the `3 × 3`
grid where `Exit` overwrote it, finds nothing), and the fallback default is
`(1, 1)` as well. -/
theorem initial_player_position_spec (width height : Nat) (walls : List (Nat × Nat))
    (hw : 3 ≤ width / 30) (hh : 3 ≤ height / 30) :
    (MazeScene.new width height walls).player_x = 1 ∧
      (MazeScene.new width height walls).player_y = 1 :=
  new_player_eq width height walls

/-- Witness for claim C10 on a `120 × 150` screen (a `4 × 5` grid). -/
theorem initial_player_position_spec_witness :
    3 ≤ 120 / 30 ∧ 3 ≤ 150 / 30 ∧
      (MazeScene.new 120 150 []).player_x = 1 ∧
      (MazeScene.new 120 150 []).player_y = 1 :=
  ⟨by decide, by decide,
   (initial_player_position_spec 120 150 [] (by decide) (by decide)).1,
   (initial_player_position_spec 120 150 [] (by decide) (by decide)).2⟩
